import Mathlib

/-!
Shallow embedding of the persistence and aggregation layer of the xc-app
repository (src/app/database.py), together with theorems checking the
natural-language specification against it.

Conventions of the embedding:
* SQLite tables are lists of typed rows, in rowid (insertion) order;
  `fetchone` on an unordered `SELECT` is the first matching list element.
* Python `None` is `Option.none`; Python string/None truthiness is `truthyS`.
* File contents (bytes or text) are modelled as `String`; the byte/text
  `mode` flag of `read_file` is kept as a parameter but does not change the
  modelled content.
* A Python function that can raise returns a sum-like type (`PyRes`,
  `PyStep`) whose error constructor records the escaping exception; code
  paths that cannot raise return plain values.
-/

/-- The `action_type` column of a post.  All writers of the posts table
(`save_post` and the 2022 CSV import) only ever store these three values. -/
inductive AType
  | story
  | challenge
  | checkpoint
deriving DecidableEq, Repr

/-- String stored in the `action_type` column / used in path derivation. -/
def atypeStr : AType → String
  | .story => "story"
  | .challenge => "challenge"
  | .checkpoint => "checkpoint"

/-- A row of the `challenges` or `checkpoints` catalog tables.  Only the
columns consulted by the claims (`name`, unique key, and `points`) are
carried; the descriptive and geo columns are never read by the scoring or
availability logic. -/
structure CatalogRow where
  name : String
  points : Int
deriving DecidableEq, Repr

/-- A row of the `posts` table (`files` is the JSON text column). -/
structure Post where
  post_id : String
  pax_id : String
  team_id : Option String
  action_type : AType
  action_name : String
  comment : String
  created : String
  files : String
deriving DecidableEq, Repr

/-- A row of the `teams` table. -/
structure Team where
  team_id : String
  team_name : String
  member1 : String
  member2 : Option String
  member3 : Option String
  team_motto : Option String
  team_web : Option String
  team_photo : Option String
  location_visibility : Int
deriving DecidableEq, Repr

/-- A row of the `participants` table. -/
structure ParticipantRow where
  id : String
  email : String
  name_web : String
  bio : Option String
  emergency_contact : Option String
  photo : Option String
deriving DecidableEq, Repr

/-- A login-account record as yielded by the collaborator account source
(`username, email, name, role`; the password hash is never read here). -/
structure Account where
  username : String
  email : String
  name : String
  role : String
deriving DecidableEq, Repr

/-- The logical participant view produced by the identity resolver: the
roster row dict, possibly updated with account fields.  `username`, `name`
and `role` are `Option` because the keys are absent from the raw row dict
until the resolver sets them. -/
structure PaxInfo where
  id : String
  email : String
  name_web : String
  bio : Option String
  emergency_contact : Option String
  photo : Option String
  username : Option String
  name : Option String
  role : Option String
deriving DecidableEq, Repr

/-- A participant row of the dataframe produced by
`get_participants(fetch_teams=True)`: resolved display name plus the
`team_id` column joined from the teams table (null when the participant is
on no team).  Only the columns read by `get_available_participants` are
carried. -/
structure PaxView where
  id : String
  name : String
  team_id : Option String
deriving DecidableEq, Repr

/-- The per-team aggregate produced by `get_team_overview`. -/
structure TeamInfo where
  team_id : String
  team_name : String
  member1 : String
  member1_name : String
  member2 : Option String
  member2_name : String
  points : Int
  posts : List (Post × Int)
deriving DecidableEq, Repr

/-- An uploaded-file object (collaborator interface: name, MIME type, and a
byte-readable body). -/
structure UploadedFile where
  name : String
  type : String
  content : String
deriving DecidableEq, Repr

/-- The two physical storage substrates: local filesystem and the S3
bucket, each a finite map path ↦ content (association list, most recent
write first). -/
structure FileState where
  local_files : List (String × String)
  s3_files : List (String × String)
deriving DecidableEq, Repr

/-- Result of a Python call that can raise: `ok` is a normal return,
`exn` an escaping exception (message records its kind). -/
inductive PyRes (α : Type)
  | ok (a : α)
  | exn (msg : String)
deriving DecidableEq, Repr

/-- Result of a state-mutating Python call: `ok s` is a normal return with
final state `s`, `raised s` an escaping exception leaving state `s`. -/
inductive PyStep (σ : Type)
  | ok (s : σ)
  | raised (s : σ)
deriving DecidableEq, Repr

/-- A decoded PIL image: dimensions plus an opaque payload identifying the
pixel data. -/
structure PILImage where
  width : Nat
  height : Nat
  payload : String
deriving DecidableEq, Repr

/-- The relational store: one list of rows per table used by the claims. -/
structure DB where
  participants : List ParticipantRow
  teams : List Team
  posts : List Post
  challenges : List CatalogRow
  checkpoints : List CatalogRow
deriving DecidableEq, Repr

/-- Combined state touched by `save_post`: the relational store plus the
file-storage state written through the storage backend. -/
structure SPState where
  db : DB
  storage : FileState
deriving DecidableEq, Repr

/-- The `action` argument of `save_post`: a plain string title for story
posts, a catalog row dict for challenge/checkpoint posts. -/
inductive ActionArg
  | str (s : String)
  | entry (a : CatalogRow)
deriving DecidableEq, Repr

/-- Python truthiness of an optional string: `None` and `""` are falsy. -/
def truthyS : Option String → Bool
  | none => false
  | some s => !(s == "")

/-- ASCII-only lower-casing, as used by SQLite's default `LIKE`. -/
def asciiLower (c : Char) : Char :=
  if 'A' ≤ c && c ≤ 'Z' then Char.ofNat (c.toNat + 32) else c

/-- Fuel-based SQLite `LIKE` matcher (default behaviour, no `ESCAPE`):
`%` matches any sequence, `_` any single character, and ordinary
characters compare ASCII-case-insensitively.  Structural recursion on the
fuel keeps the definition kernel-reducible; each recursive call shrinks
`pattern.length + text.length`, so fuel `pattern.length + text.length`
always suffices and the out-of-fuel branch is unreachable from
`sqlLikeMatch`. -/
def likeMatchF : Nat → List Char → List Char → Bool
  | _, [], ts => ts.isEmpty
  | 0, _ :: _, _ => false
  | fuel + 1, '%' :: ps, ts =>
    likeMatchF fuel ps ts ||
      (match ts with
       | [] => false
       | _ :: ts2 => likeMatchF fuel ('%' :: ps) ts2)
  | fuel + 1, '_' :: ps, ts =>
    (match ts with
     | [] => false
     | _ :: ts2 => likeMatchF fuel ps ts2)
  | fuel + 1, p :: ps, ts =>
    (match ts with
     | [] => false
     | t :: ts2 => (asciiLower p == asciiLower t) && likeMatchF fuel ps ts2)

/-- `pattern LIKE text` with SQLite's default semantics. -/
def sqlLikeMatch (pattern s : String) : Bool :=
  likeMatchF (pattern.length + s.length) pattern.data s.data

/-- Case-sensitive "s starts with pre" (`str.startswith` in Python, also
the reading of the spec's prefix wording on the spec side of the scoring
claims). -/
def strStartsWith (s pre : String) : Bool :=
  pre.data.isPrefixOf s.data

/-- Keep-first deduplication, the behaviour of `pandas.Series.unique()`. -/
def uniqFrom (seen : List String) : List String → List String
  | [] => []
  | x :: xs => if seen.contains x then uniqFrom seen xs else x :: uniqFrom (x :: seen) xs

/-- Escape a string for JSON embedding, as `json.dumps` does for the
characters occurring in file paths and MIME types. -/
def jsonEscape (s : String) : String :=
  String.mk (s.data.foldr (fun c acc =>
    if c = '\\' then '\\' :: '\\' :: acc
    else if c = '"' then '\\' :: '"' :: acc
    else c :: acc) [])

/-- A JSON string literal. -/
def jsonStr (s : String) : String := "\"" ++ jsonEscape s ++ "\""

/-- One `{"path": ..., "type": ...}` object of the files manifest. -/
def fileRefJson (pr : String × String) : String :=
  "\x7b\"path\": " ++ jsonStr pr.1 ++ ", \"type\": " ++ jsonStr pr.2 ++ "\x7d"

/-- `json.dumps` of the ordered `[{"path":…, "type":…}, …]` files manifest
(default separators). -/
def filesJson (l : List (String × String)) : String :=
  "[" ++ String.intercalate ", " (l.map fileRefJson) ++ "]"

/-- Lookup in an association-list file store. -/
def lookupFile (files : List (String × String)) (path : String) : Option String :=
  (files.find? (fun pr => pr.1 == path)).map (·.2)

/-- Store a file, shadowing any previous content at the same path. -/
def putFile (files : List (String × String)) (path content : String) : List (String × String) :=
  (path, content) :: files

/-- `Database.read_file`.  Branches exactly as the source does on the
configured `file_system` and the `static/` prefix: the S3 branch catches
any remote error and returns `None`; the local branch opens the path
directly (a missing local file raises `FileNotFoundError`, uncaught); any
other configuration raises `ValueError`.  The `mode` flag only selects
text decoding and is immaterial here, where contents are strings. -/
def read_file (cfg : String) (st : FileState) (filepath : String) (mode : String) : PyRes (Option String) :=
  if cfg == "s3" && !(strStartsWith filepath "static/") then
    PyRes.ok (lookupFile st.s3_files filepath)
  else if cfg == "local" || strStartsWith filepath "static/" then
    match lookupFile st.local_files filepath with
    | some c => PyRes.ok (some c)
    | none => PyRes.exn "FileNotFoundError"
  else
    PyRes.exn ("ValueError: Unknown file system: " ++ cfg ++ ", use s3 or local.")

/-- `Database.write_file`.  Note the source has no `else` branch: for a
configuration that is neither `s3` nor `local` the function falls off the
end and returns `None` without writing or raising, so the embedding is a
total function on states. -/
def write_file (cfg : String) (st : FileState) (filepath content : String) : FileState :=
  if cfg == "s3" then { st with s3_files := putFile st.s3_files filepath content }
  else if cfg == "local" then { st with local_files := putFile st.local_files filepath content }
  else st

/-- The placeholder `Image.new("RGB", (1, 1))`. -/
def blankImage : PILImage := { width := 1, height := 1, payload := "" }

/-- `Database.read_image`.  `decode` models `PIL.Image.open` (`none` for
bytes PIL cannot parse, which raises) and `transpose` models
`ImageOps.exif_transpose`, the orientation normalization from embedded
metadata. -/
def read_image (cfg : String) (decode : String → Option PILImage)
    (transpose : PILImage → PILImage) (st : FileState) (filepath : String) : PyRes PILImage :=
  match read_file cfg st filepath "b" with
  | PyRes.exn e => PyRes.exn e
  | PyRes.ok img =>
    match img with
    | none => PyRes.ok blankImage
    | some c =>
      if c == "" then PyRes.ok blankImage
      else
        match decode c with
        | none => PyRes.exn "UnidentifiedImageError"
        | some i => PyRes.ok (transpose i)

/-- Lower-casing of a string, character by character (emails in this
application are ASCII, so ASCII folding models Python's `str.lower`). -/
def strLower (s : String) : String :=
  String.mk (s.data.map asciiLower)

/-- Modelled from the spec: `AccountManager.get_user_by_email`
(`accounts.py` is not among this repository's source files).  Per §4.4 the
login account is looked up by matching lower-cased email. -/
def get_user_by_email (accounts : List Account) (email : String) : Option Account :=
  accounts.find? (fun a => strLower a.email == strLower email)

/-- The identity-resolver overlay applied to one roster row, as inlined in
`get_participants` and `get_participant_by_id`: update the row dict with
the account fields when an account matches, then fall back `name ←
name_web` and `username ← name` when those entries are still falsy. -/
def resolve_pax (accounts : List Account) (row : ParticipantRow) : PaxInfo :=
  let base : PaxInfo :=
    { id := row.id, email := row.email, name_web := row.name_web,
      bio := row.bio, emergency_contact := row.emergency_contact, photo := row.photo,
      username := none, name := none, role := none }
  let merged :=
    match get_user_by_email accounts row.email with
    | some a => { base with username := some a.username, name := some a.name, role := some a.role }
    | none => base
  let named := if truthyS merged.name then merged else { merged with name := some merged.name_web }
  if truthyS named.username then named else { named with username := named.name }

/-- `Database.get_participant_by_id`: fetch the roster row by id (`None`
when absent) and apply the account overlay. -/
def get_participant_by_id (db : DB) (accounts : List Account) (id : String) : Option PaxInfo :=
  (db.participants.find? (fun r => r.id == id)).map (resolve_pax accounts)

/-- The resolved participant list, as produced by
`get_participants(include_non_registered=True)`. -/
def resolvedParticipants (db : DB) (accounts : List Account) : List PaxInfo :=
  db.participants.map (resolve_pax accounts)

/-- `Database.get_team_by_id`. -/
def get_team_by_id (db : DB) (team_id : String) : Option Team :=
  db.teams.find? (fun t => t.team_id == team_id)

/-- `Database.get_team_for_user`: `None` for a null pax id, else the first
team row having the id as `member1` or `member2` (SQL `=` never matches a
NULL `member2`). -/
def get_team_for_user (db : DB) (pax_id : Option String) : Option Team :=
  match pax_id with
  | none => none
  | some pid => db.teams.find? (fun t => t.member1 == pid || t.member2 == some pid)

/-- The catalog table backing a scoring `action_type`.  The `.story` case
models the dead branch of `get_action`: the Python dict lookup would raise
`KeyError` for it, and `get_points_for_action` returns before ever calling
`get_action` with `"story"`, so that case is unreachable in the program. -/
def scoringTable (db : DB) : AType → List CatalogRow
  | .challenge => db.challenges
  | .checkpoint => db.checkpoints
  | .story => []

/-- `Database.get_action`: the first catalog row (in table order) whose
`name LIKE action_name || '%'`, or `None` when the pattern matches no
row. -/
def get_action (db : DB) (action_type : AType) (action_name : String) : Option CatalogRow :=
  (scoringTable db action_type).find? (fun r => sqlLikeMatch (action_name ++ "%") r.name)

/-- `Database.get_points_for_action`: 0 for stories, 0 (with a logged
warning) when the lookup finds nothing, else the matched row's points. -/
def get_points_for_action (db : DB) (action_type : AType) (action_name : String) : Int :=
  if action_type = AType.story then 0
  else
    match get_action db action_type action_name with
    | none => 0
    | some a => a.points

/-- `Database.get_team_overview`.  `posts` and `participants` are passed
in by the caller (`get_teams_overview`) as in the source.  The `none`
results model the uncaught `TypeError`/`IndexError` that the Python code
raises when the team row or a member's participant record is missing. -/
def get_team_overview (db : DB) (posts : List Post) (participants : List PaxInfo)
    (team_id : String) : Option TeamInfo :=
  let posts_team := posts.filter (fun p => p.team_id == some team_id)
  let scored := posts_team.map (fun p => (p, get_points_for_action db p.action_type p.action_name))
  match get_team_by_id db team_id with
  | none => none
  | some team =>
    match participants.find? (fun p => p.id == team.member1) with
    | none => none
    | some m1 =>
      let finish : String → TeamInfo := fun member2_name =>
        { team_id := team_id, team_name := team.team_name,
          member1 := team.member1, member1_name := m1.name.getD "",
          member2 := team.member2, member2_name := member2_name,
          points := (scored.map (·.2)).sum, posts := scored }
      if truthyS team.member2 then
        match participants.find? (fun p => some p.id == team.member2) with
        | none => none
        | some m2 => some (finish (m2.name.getD ""))
      else some (finish "")

/-- `Database.get_available_actions`.  The team filter reproduces the
pandas semantics of `posts["team_id"] == team_id`: comparing a column
against `None` yields `False` on every row, so a teamless user has an
empty completed set.  The `.story` case models the `UnboundLocalError`
the source would raise for an action type with no catalog table. -/
def get_available_actions (db : DB) (pax_id : Option String) (action_type : AType) :
    Option (List CatalogRow) :=
  let team_id := (get_team_for_user db pax_id).map (·.team_id)
  let completed := db.posts.filter (fun p => p.action_type == action_type)
  let completed := completed.filter (fun p =>
    match team_id with
    | some tid => p.team_id == some tid
    | none => false)
  let completed_names := uniqFrom [] (completed.map (·.action_name))
  match action_type with
  | .story => none
  | t => some ((scoringTable db t).filter (fun r => !(completed_names.contains r.name)))

/-- The synthetic "nobody" option prepended by
`get_available_participants`; its dataframe row carries no `team_id`
column, hence null after concatenation. -/
def noPartnerRow : PaxView := { id := "-1", name := "(bez parťáka)", team_id := none }

/-- The requester's current teammate: `member1` unless the requester is
`member1`, then `member2` (possibly null). -/
def requesterTeammate (pax_id : String) (team : Option Team) : Option String :=
  match team with
  | some t => if !(t.member1 == pax_id) then some t.member1 else t.member2
  | none => none

/-- `Database.get_available_participants`.  `paxes` is the resolved,
sorted roster with joined `team_id` produced upstream by
`get_participants(fetch_teams=True, sort_by_name=True,
include_non_registered=True)`. -/
def get_available_participants (paxes : List PaxView) (pax_id : String)
    (team : Option Team) : List PaxView :=
  if paxes.isEmpty then []
  else
    let all_paxes := paxes.filter (fun p => !(p.id == pax_id))
    let teammate := requesterTeammate pax_id team
    let available := noPartnerRow :: all_paxes.filter (fun p => p.team_id == none)
    if truthyS teammate then
      all_paxes.filter (fun p => p.id == teammate.getD "") ++ available
    else available

/-- `Database.add_or_update_team`.  `INSERT OR REPLACE` deletes any row
with the conflicting unique `team_id` and inserts a fresh row; the
statement names neither `member3` nor `location_visibility`, so those take
the schema defaults (NULL and 1). -/
def add_or_update_team (cfg : String) (slug : String → String) (top_dir : String)
    (gen_id : String) (team_name : String) (team_motto team_web : Option String)
    (team_photo : Option UploadedFile) (first_member second_member : String)
    (current_team : Option Team) (db : DB) (fst : FileState) : DB × FileState :=
  let team_id := match current_team with
    | some t => t.team_id
    | none => gen_id
  let second : Option String := if second_member == "-1" then none else some second_member
  let photo_written : Option String × FileState :=
    match team_photo with
    | some ph =>
      let photo_path := top_dir ++ "/teams/" ++ slug team_name ++ "/" ++ ph.name
      (some photo_path, write_file cfg fst photo_path ph.content)
    | none => (none, fst)
  let row : Team :=
    { team_id := team_id, team_name := team_name, member1 := first_member,
      member2 := second, member3 := none, team_motto := team_motto,
      team_web := team_web, team_photo := photo_written.1, location_visibility := 1 }
  ({ db with teams := db.teams.filter (fun t => !(t.team_id == team_id)) ++ [row] },
    photo_written.2)

/-- `Database.is_team_visible`: `None` when the team row is absent, else
the Python truth value of the stored integer. -/
def is_team_visible (db : DB) (team_id : String) : Option Bool :=
  (db.teams.find? (fun t => t.team_id == team_id)).map (fun t => t.location_visibility != 0)

/-- `Database.toggle_team_visibility`: read the row, store
`1 - location_visibility` on every row with that `team_id`, return the new
value (`None` when the team is absent).  Returns the value together with
the updated store. -/
def toggle_team_visibility (db : DB) (team_id : String) : Option Int × DB :=
  match db.teams.find? (fun t => t.team_id == team_id) with
  | none => (none, db)
  | some t =>
    let visibility := 1 - t.location_visibility
    (some visibility,
      { db with teams := db.teams.map (fun u =>
          if u.team_id == team_id then { u with location_visibility := visibility } else u) })

/-- The `title` of a post: the `action` argument itself for a story, the
dict's `name` otherwise.  `none` models the `TypeError` Python raises on
the two argument shapes the callers never produce. -/
def postTitle : AType → ActionArg → Option String
  | .story, .str s => some s
  | .story, .entry _ => none
  | _, .entry a => some a.name
  | _, .str _ => none

/-- `Database.save_post`.  Resolves the author's team first (`raised` with
the untouched state models the uncaught `TypeError` on a teamless or
unknown author), then writes every attached file through the storage
backend under `top_dir/action_type/title/slug(team_name)`, then inserts
the one post row whose `files` column is the JSON-serialized ordered
manifest.  `pax_id.getD ""` is never exercised: a `none` pax id already
took the error branch. -/
def save_post (cfg : String) (slug : String → String) (top_dir : String)
    (post_id created : String) (pax_id : Option String) (action_type : AType)
    (action : ActionArg) (comment : String) (files : List UploadedFile)
    (s : SPState) : PyStep SPState :=
  match get_team_for_user s.db pax_id with
  | none => PyStep.raised s
  | some team =>
    match postTitle action_type action with
    | none => PyStep.raised s
    | some title =>
      let dir_path := top_dir ++ "/" ++ atypeStr action_type ++ "/" ++ title ++ "/" ++ slug team.team_name
      let storage2 := files.foldl (fun fs f => write_file cfg fs (dir_path ++ "/" ++ f.name) f.content) s.storage
      let manifest := files.map (fun f => (dir_path ++ "/" ++ f.name, f.type))
      let row : Post :=
        { post_id := post_id, pax_id := pax_id.getD "", team_id := some team.team_id,
          action_type := action_type, action_name := title, comment := comment,
          created := created, files := filesJson manifest }
      PyStep.ok { db := { s.db with posts := s.db.posts ++ [row] }, storage := storage2 }

/-!  Spec-side definitions: these follow the wording of the specification
(and, for corrected claims, its amended wording), to be compared with the
definitions above that are translated from the source. -/

/-- Spec-side resolved points of a post, as claim C1 words it: a story
contributes 0, a scoring post whose `action_name` is a (case-sensitive)
prefix of no catalog entry's name contributes 0, and otherwise the first
such catalog entry's points. -/
def specPointsByStart (db : DB) (p : Post) : Int :=
  match p.action_type with
  | .story => 0
  | t =>
    match (scoringTable db t).find? (fun r => strStartsWith r.name p.action_name) with
    | none => 0
    | some r => r.points

/-- Spec-side resolved points of a post under the amended wording of claim
C1: the match is SQLite `LIKE` against `action_name || '%'`
(ASCII-case-insensitive, `%`/`_` in the name act as wildcards) instead of
a case-sensitive prefix test. -/
def specPointsLike (db : DB) (p : Post) : Int :=
  match p.action_type with
  | .story => 0
  | t =>
    match (scoringTable db t).find? (fun r => sqlLikeMatch (p.action_name ++ "%") r.name) with
    | none => 0
    | some r => r.points

/-- Spec-side available actions, as claim C3 words it: the catalog entries
of the given type whose name is not exactly equal to any `action_name`
among the user's team's posts of the same type (no posts for a teamless
user). -/
def specAvailableActions (db : DB) (pax_id : Option String) (t : AType) : List CatalogRow :=
  let completed : List String :=
    match get_team_for_user db pax_id with
    | none => []
    | some tm =>
      (db.posts.filter (fun p => p.team_id == some tm.team_id && p.action_type == t)).map (·.action_name)
  (scoringTable db t).filter (fun r => !(completed.contains r.name))

/-!  Concrete fixtures for witnesses and counterexamples. -/

/-- C1 counterexample fixture: one post naming `"a"`, one catalog entry
named `"A"` worth 5 points. -/
def dbC1x : DB :=
  { participants := [
      { id := "p1", email := "p1@x.cz", name_web := "P One",
        bio := none, emergency_contact := none, photo := none }],
    teams := [
      { team_id := "t1", team_name := "Team", member1 := "p1", member2 := none,
        member3 := none, team_motto := none, team_web := none, team_photo := none,
        location_visibility := 1 }],
    posts := [
      { post_id := "po1", pax_id := "p1", team_id := some "t1",
        action_type := AType.challenge, action_name := "a", comment := "c",
        created := "2024-07-01 10:00:00", files := "[]" }],
    challenges := [{ name := "A", points := 5 }],
    checkpoints := [] }

/-- C1 witness fixture: a story, a matched challenge, and an unmatched
checkpoint post for the same team. -/
def dbC1w : DB :=
  { participants := [
      { id := "p1", email := "p1@x.cz", name_web := "P One",
        bio := none, emergency_contact := none, photo := none }],
    teams := [
      { team_id := "t1", team_name := "Team", member1 := "p1", member2 := none,
        member3 := none, team_motto := none, team_web := none, team_photo := none,
        location_visibility := 1 }],
    posts := [
      { post_id := "po1", pax_id := "p1", team_id := some "t1",
        action_type := AType.story, action_name := "Day 1", comment := "",
        created := "", files := "[]" },
      { post_id := "po2", pax_id := "p1", team_id := some "t1",
        action_type := AType.challenge, action_name := "Denní výzva #1", comment := "",
        created := "", files := "[]" },
      { post_id := "po3", pax_id := "p1", team_id := some "t1",
        action_type := AType.checkpoint, action_name := "Nowhere", comment := "",
        created := "", files := "[]" }],
    challenges := [{ name := "Denní výzva #1 - bonus", points := 7 }],
    checkpoints := [{ name := "Checkpoint 3", points := 4 }] }

/-- C2 counterexample fixture: a single catalog entry named `"A"`. -/
def dbC2x : DB :=
  { participants := [], teams := [], posts := [],
    challenges := [{ name := "A", points := 5 }], checkpoints := [] }

/-- C2 witness fixture: two catalog entries sharing the queried name as a
prefix, to exhibit the first-match behaviour. -/
def dbC2w : DB :=
  { participants := [], teams := [], posts := [],
    challenges := [
      { name := "Checkpoint 3 - bonus", points := 3 },
      { name := "Checkpoint 3", points := 9 }],
    checkpoints := [] }

/-- C3 witness fixture: catalog `{A, B, C}` and one completed post named
exactly `B` for the user's team. -/
def dbC3w : DB :=
  { participants := [],
    teams := [
      { team_id := "t1", team_name := "Team", member1 := "p1", member2 := none,
        member3 := none, team_motto := none, team_web := none, team_photo := none,
        location_visibility := 1 }],
    posts := [
      { post_id := "po1", pax_id := "p1", team_id := some "t1",
        action_type := AType.challenge, action_name := "B", comment := "",
        created := "", files := "[]" }],
    challenges := [
      { name := "A", points := 1 },
      { name := "B", points := 2 },
      { name := "C", points := 3 }],
    checkpoints := [] }

/-- C4 fixture: the requester's team (requester `"1"`, teammate `"2"`). -/
def teamC4 : Team :=
  { team_id := "T", team_name := "Duo", member1 := "1", member2 := some "2",
    member3 := none, team_motto := none, team_web := none, team_photo := none,
    location_visibility := 1 }

/-- C4 fixture: the resolved roster with joined team ids. -/
def paxesC4 : List PaxView :=
  [{ id := "1", name := "Alice", team_id := some "T" },
   { id := "2", name := "Bob", team_id := some "T" },
   { id := "3", name := "Cleo", team_id := none }]

/-- C5 witness fixture: one currently-visible team. -/
def dbC5w : DB :=
  { participants := [],
    teams := [
      { team_id := "t1", team_name := "Team", member1 := "p1", member2 := none,
        member3 := none, team_motto := none, team_web := none, team_photo := none,
        location_visibility := 1 }],
    posts := [], challenges := [], checkpoints := [] }

/-- C6 witness fixture: two roster rows, only the first has a matching
login account. -/
def dbC6w : DB :=
  { participants := [
      { id := "p1", email := "Ada@X.cz", name_web := "Ada Roster",
        bio := none, emergency_contact := none, photo := none },
      { id := "p2", email := "noacct@x.cz", name_web := "No Account",
        bio := none, emergency_contact := none, photo := none }],
    teams := [], posts := [], challenges := [], checkpoints := [] }

/-- C6 witness fixture: the login-account roster. -/
def accountsC6 : List Account :=
  [{ username := "ada", email := "ada@x.cz", name := "Ada Account", role := "admin" }]

/-- C7 witness fixture: initial state with one team for pax `"p1"` and no
posts. -/
def stC7 : SPState :=
  { db :=
      { participants := [],
        teams := [
          { team_id := "t1", team_name := "Team X", member1 := "p1", member2 := none,
            member3 := none, team_motto := none, team_web := none, team_photo := none,
            location_visibility := 1 }],
        posts := [], challenges := [], checkpoints := [] },
    storage := { local_files := [], s3_files := [] } }

/-- C7 witness fixture: the attached upload. -/
def fileC7 : UploadedFile := { name := "pic.jpg", type := "image/jpeg", content := "JPG" }

/-- C8/C9 fixture: a file state with one static local file and one S3
file. -/
def stC8 : FileState :=
  { local_files := [("static/logo.png", "LOGO")], s3_files := [("files/2024/a.jpg", "PIX")] }


/-!  Theorems. -/

theorem find?_split {α : Type} (p : α → Bool) :
    ∀ (l : List α) (a : α), l.find? p = some a →
      ∃ l₁ l₂, l = l₁ ++ a :: l₂ ∧ (∀ x ∈ l₁, p x = false) ∧ p a = true := by
  intro l
  induction l with
  | nil => intro a h; simp at h
  | cons x xs ih =>
    intro a h
    cases hx : p x with
    | true =>
      rw [List.find?_cons_of_pos _ hx, Option.some.injEq] at h
      subst h
      exact ⟨[], xs, rfl, by simp, hx⟩
    | false =>
      rw [List.find?_cons_of_neg _ (by simp [hx])] at h
      obtain ⟨l₁, l₂, hsplit, h1, h2⟩ := ih a h
      refine ⟨x :: l₁, l₂, by rw [hsplit]; rfl, ?_, h2⟩
      intro y hy
      rcases List.mem_cons.mp hy with rfl | hy2
      · exact hx
      · exact h1 y hy2

/-- Claim C2 (amended): for a scoring action type, `get_action` returns
the first catalog row (in catalog order) whose name matches the SQLite
`LIKE` pattern `action_name || '%'` (ASCII-case-insensitive, with `%`/`_`
of the name acting as wildcards), returns `none` when no row matches the
pattern, and in the no-match case the score contribution is 0 with no
exception raised. -/
theorem get_action_first_like_match (db : DB) (t : AType) (ht : t ≠ AType.story) (n : String) :
    ((get_action db t n = none) ↔ ∀ r ∈ scoringTable db t, sqlLikeMatch (n ++ "%") r.name = false) ∧
    (∀ r, get_action db t n = some r →
      ∃ l₁ l₂, scoringTable db t = l₁ ++ r :: l₂ ∧
        (∀ x ∈ l₁, sqlLikeMatch (n ++ "%") x.name = false) ∧
        sqlLikeMatch (n ++ "%") r.name = true) ∧
    (get_action db t n = none → get_points_for_action db t n = 0) := by
  refine ⟨?_, ?_, ?_⟩
  · rw [get_action, List.find?_eq_none]
    constructor
    · intro h r hr
      have := h r hr
      simpa using this
    · intro h r hr
      simp [h r hr]
  · intro r h
    exact find?_split _ _ _ h
  · intro h
    rw [get_points_for_action, if_neg ht, h]

/-- Claim C2 counterexample: with a catalog whose only entry is named
`"A"`, no catalog name starts with the queried `"a"`, yet the lookup
returns that entry rather than null (SQLite `LIKE` is
case-insensitive). -/
theorem get_action_startsWith_counterexample :
    (∀ r ∈ scoringTable dbC2x AType.challenge, strStartsWith r.name "a" = false) ∧
    get_action dbC2x AType.challenge "a" = some { name := "A", points := 5 } := by
  constructor
  · decide
  · decide

/-- Claim C2 witness: the characterization applied to a concrete catalog
holding `"Checkpoint 3 - bonus"` before `"Checkpoint 3"`, queried with
`"Checkpoint 3"`. -/
theorem get_action_first_like_match_witness :
    ((get_action dbC2w AType.challenge "Checkpoint 3" = none) ↔
      ∀ r ∈ scoringTable dbC2w AType.challenge,
        sqlLikeMatch ("Checkpoint 3" ++ "%") r.name = false) ∧
    (∀ r, get_action dbC2w AType.challenge "Checkpoint 3" = some r →
      ∃ l₁ l₂, scoringTable dbC2w AType.challenge = l₁ ++ r :: l₂ ∧
        (∀ x ∈ l₁, sqlLikeMatch ("Checkpoint 3" ++ "%") x.name = false) ∧
        sqlLikeMatch ("Checkpoint 3" ++ "%") r.name = true) ∧
    (get_action dbC2w AType.challenge "Checkpoint 3" = none →
      get_points_for_action dbC2w AType.challenge "Checkpoint 3" = 0) :=
  get_action_first_like_match dbC2w AType.challenge (by decide) "Checkpoint 3"

theorem points_eq_specLike (db : DB) (p : Post) :
    get_points_for_action db p.action_type p.action_name = specPointsLike db p := by
  cases hT : p.action_type with
  | story => simp [get_points_for_action, specPointsLike, hT]
  | challenge => simp [get_points_for_action, specPointsLike, get_action, hT]
  | checkpoint => simp [get_points_for_action, specPointsLike, get_action, hT]

/-- Claim C1 (amended): whenever `get_team_overview` returns a record, its
score equals the sum, over the posts carrying the team's id, of the post's
resolved points — 0 for a story, 0 for a scoring post whose
`action_name || '%'` `LIKE`-matches no catalog name of its type, and
otherwise the first `LIKE`-matched catalog entry's points. -/
theorem team_overview_points_like_sum (db : DB) (posts : List Post)
    (participants : List PaxInfo) (team_id : String) (info : TeamInfo)
    (h : get_team_overview db posts participants team_id = some info) :
    info.points = ((posts.filter (fun p => p.team_id == some team_id)).map (specPointsLike db)).sum := by
  rw [get_team_overview] at h
  split at h
  · exact absurd h (by simp)
  · split at h
    · exact absurd h (by simp)
    · split at h
      · split at h
        · exact absurd h (by simp)
        · rw [Option.some.injEq] at h
          subst h
          dsimp only
          rw [List.map_map]
          congr 1
          exact List.map_congr_left (fun p _ => points_eq_specLike db p)
      · rw [Option.some.injEq] at h
        subst h
        dsimp only
        rw [List.map_map]
        congr 1
        exact List.map_congr_left (fun p _ => points_eq_specLike db p)

/-- Claim C1 counterexample: the overview score of team `t1` is 5 (its
post `"a"` `LIKE`-matches the entry `"A"`), while the claim's
case-sensitive-prefix formula sums to 0. -/
theorem team_overview_startsWith_counterexample :
    (get_team_overview dbC1x dbC1x.posts (resolvedParticipants dbC1x []) "t1").map TeamInfo.points = some 5 ∧
    ((dbC1x.posts.filter (fun p => p.team_id == some "t1")).map (specPointsByStart dbC1x)).sum = 0 := by
  constructor
  · decide
  · decide

/-- Claim C1 witness: the amended claim applied to a team with a story, a
matched challenge (7 points via a suffixed catalog name) and an unmatched
checkpoint, total 7. -/
theorem team_overview_points_like_sum_witness :
    ((get_team_overview dbC1w dbC1w.posts (resolvedParticipants dbC1w []) "t1").map TeamInfo.points =
      some ((dbC1w.posts.filter (fun p => p.team_id == some "t1")).map (specPointsLike dbC1w)).sum) ∧
    ((dbC1w.posts.filter (fun p => p.team_id == some "t1")).map (specPointsLike dbC1w)).sum = 7 := by
  constructor
  · have h : get_team_overview dbC1w dbC1w.posts (resolvedParticipants dbC1w []) "t1" =
        some
          { team_id := "t1", team_name := "Team", member1 := "p1", member1_name := "P One",
            member2 := none, member2_name := "", points := 7,
            posts := (dbC1w.posts.filter (fun p => p.team_id == some "t1")).map
              (fun p => (p, get_points_for_action dbC1w p.action_type p.action_name)) } := by
      decide
    have hs := team_overview_points_like_sum dbC1w dbC1w.posts (resolvedParticipants dbC1w []) "t1" _ h
    rw [h, Option.map_some']
    rw [← hs]
  · decide

theorem mem_uniqFrom (a : String) :
    ∀ (l seen : List String), a ∈ uniqFrom seen l ↔ (a ∈ l ∧ a ∉ seen) := by
  intro l
  induction l with
  | nil => intro seen; simp [uniqFrom]
  | cons x xs ih =>
    intro seen
    by_cases hx : x ∈ seen
    · have hxb : seen.contains x = true := by simpa using hx
      rw [uniqFrom, if_pos hxb, ih]
      by_cases hax : a = x
      · subst hax
        simp [hx]
      · simp [List.mem_cons, hax]
    · have hxb : ¬(seen.contains x = true) := by simpa using hx
      rw [uniqFrom, if_neg hxb, List.mem_cons, ih]
      by_cases hax : a = x
      · subst hax
        simp [hx]
      · simp [List.mem_cons, hax]

/-- Claim C3: the available-actions result is exactly the catalog entries
of the given type whose name is not exactly (string-equality, not
prefix-) equal to any `action_name` among the user's team's posts of the
same type; a teamless user has an empty completed set. -/
theorem available_actions_exact_filter (db : DB) (pax_id : Option String) (t : AType)
    (res : List CatalogRow) (h : get_available_actions db pax_id t = some res) :
    res = specAvailableActions db pax_id t := by
  cases t with
  | story => exact absurd h (by simp [get_available_actions])
  | challenge =>
    simp only [get_available_actions, Option.some.injEq] at h
    subst h
    rw [specAvailableActions]
    cases hT : get_team_for_user db pax_id with
    | none => simp [hT, uniqFrom]
    | some tm =>
      simp only [hT, Option.map_some', List.filter_filter]
      apply List.filter_congr
      intro r hr
      simp [mem_uniqFrom]
  | checkpoint =>
    simp only [get_available_actions, Option.some.injEq] at h
    subst h
    rw [specAvailableActions]
    cases hT : get_team_for_user db pax_id with
    | none => simp [hT, uniqFrom]
    | some tm =>
      simp only [hT, Option.map_some', List.filter_filter]
      apply List.filter_congr
      intro r hr
      simp [mem_uniqFrom]

/-- Claim C3 witness: for catalog `{A, B, C}` and a team with one
completed challenge post named exactly `B`, the available actions are
`{A, C}`. -/
theorem available_actions_exact_filter_witness :
    get_available_actions dbC3w (some "p1") AType.challenge =
      some (specAvailableActions dbC3w (some "p1") AType.challenge) ∧
    specAvailableActions dbC3w (some "p1") AType.challenge =
      [{ name := "A", points := 1 }, { name := "C", points := 3 }] := by
  constructor
  · have h : get_available_actions dbC3w (some "p1") AType.challenge =
        some [{ name := "A", points := 1 }, { name := "C", points := 3 }] := by decide
    rw [h]
    exact congrArg some (available_actions_exact_filter dbC3w (some "p1") AType.challenge _ h)
  · decide

/-- Claim C4 counterexample: when the requester (`"1"`) already has a
teammate (`"2"`), the returned list starts with the re-added teammate row,
not with the synthetic "no partner" option (which sits second). -/
theorem available_participants_order_counterexample :
    (get_available_participants paxesC4 "1" (some teamC4)).head? =
      some { id := "2", name := "Bob", team_id := some "T" } ∧
    ¬((get_available_participants paxesC4 "1" (some teamC4)).head? = some noPartnerRow) := by
  constructor
  · decide
  · decide

/-- Claim C4 (amended): the candidate list is the roster minus the
requester minus anyone already on a team, with a synthetic "no partner"
option prepended, and — when the requester already has a teammate — that
teammate's row(s) re-added in front of the synthetic option; the synthetic
option is therefore the first element exactly when the requester has no
truthy teammate.  Every teamless non-requester roster row appears, and
every returned row other than the synthetic one comes from the roster and
is not the requester. -/
theorem available_participants_shape (paxes : List PaxView) (pax_id : String)
    (team : Option Team) (h : paxes ≠ []) :
    (get_available_participants paxes pax_id team =
      (if truthyS (requesterTeammate pax_id team) then
        (paxes.filter (fun p => !(p.id == pax_id))).filter
          (fun p => p.id == (requesterTeammate pax_id team).getD "")
      else []) ++
        noPartnerRow ::
          (paxes.filter (fun p => !(p.id == pax_id))).filter (fun p => p.team_id == none)) ∧
    (truthyS (requesterTeammate pax_id team) = false →
      (get_available_participants paxes pax_id team).head? = some noPartnerRow) ∧
    (∀ p ∈ paxes, p.id ≠ pax_id → p.team_id = none →
      p ∈ get_available_participants paxes pax_id team) ∧
    (∀ p ∈ get_available_participants paxes pax_id team, p ≠ noPartnerRow →
      p ∈ paxes ∧ p.id ≠ pax_id) := by
  have hne : paxes.isEmpty = false := by
    cases paxes with
    | nil => exact absurd rfl h
    | cons a l => rfl
  have hstruct : get_available_participants paxes pax_id team =
      (if truthyS (requesterTeammate pax_id team) then
        (paxes.filter (fun p => !(p.id == pax_id))).filter
          (fun p => p.id == (requesterTeammate pax_id team).getD "")
      else []) ++
        noPartnerRow ::
          (paxes.filter (fun p => !(p.id == pax_id))).filter (fun p => p.team_id == none) := by
    by_cases htm : truthyS (requesterTeammate pax_id team)
    · simp [get_available_participants, hne, htm]
    · simp [get_available_participants, hne, htm]
  refine ⟨hstruct, ?_, ?_, ?_⟩
  · intro htm
    rw [hstruct, htm]
    rfl
  · intro p hp hpid hteam
    rw [hstruct]
    refine List.mem_append_right _ (List.mem_cons_of_mem _ ?_)
    refine List.mem_filter.mpr ⟨List.mem_filter.mpr ⟨hp, ?_⟩, ?_⟩
    · simp [hpid]
    · simp [hteam]
  · intro p hp hnp
    rw [hstruct] at hp
    rcases List.mem_append.mp hp with h1 | h2
    · by_cases htm : truthyS (requesterTeammate pax_id team)
      · rw [if_pos htm] at h1
        have h3 := (List.mem_filter.mp h1).1
        have h4 := List.mem_filter.mp h3
        exact ⟨h4.1, by simpa using h4.2⟩
      · rw [if_neg htm] at h1
        simp at h1
    · rcases List.mem_cons.mp h2 with rfl | h3
      · exact absurd rfl hnp
      · have h4 := List.mem_filter.mp ((List.mem_filter.mp h3).1)
        exact ⟨h4.1, by simpa using h4.2⟩

/-- Claim C4 witness: a teammate-less requester (`"3"`) gets the synthetic
"no partner" option as the first element. -/
theorem available_participants_shape_witness :
    (get_available_participants paxesC4 "3" none).head? = some noPartnerRow :=
  (available_participants_shape paxesC4 "3" none (by decide)).2.1 (by decide)

theorem find?_update_visibility (tid : String) (v : Int) :
    ∀ (l : List Team),
      (l.map (fun u => if u.team_id == tid then { u with location_visibility := v } else u)).find?
          (fun u => u.team_id == tid) =
        (l.find? (fun u => u.team_id == tid)).map
          (fun u => { u with location_visibility := v }) := by
  intro l
  induction l with
  | nil => rfl
  | cons x xs ih =>
    rw [List.map_cons]
    by_cases hx : (x.team_id == tid) = true
    · have e1 : (if (x.team_id == tid) = true then ({ x with location_visibility := v } : Team) else x) =
        { x with location_visibility := v } := if_pos hx
      rw [e1]
      have e2 : List.find? (fun u => u.team_id == tid)
          (({ x with location_visibility := v } : Team) ::
            (xs.map (fun u => if u.team_id == tid then { u with location_visibility := v } else u))) =
          some { x with location_visibility := v } := by
        apply List.find?_cons_of_pos
        exact hx
      have e3 : List.find? (fun u => u.team_id == tid) (x :: xs) = some x := by
        apply List.find?_cons_of_pos
        exact hx
      rw [e2, e3]
      rfl
    · have e1 : (if (x.team_id == tid) = true then ({ x with location_visibility := v } : Team) else x) = x :=
        if_neg hx
      rw [e1]
      have e2 : List.find? (fun u => u.team_id == tid)
          (x :: (xs.map (fun u => if u.team_id == tid then { u with location_visibility := v } else u))) =
          List.find? (fun u => u.team_id == tid)
            (xs.map (fun u => if u.team_id == tid then { u with location_visibility := v } else u)) := by
        apply List.find?_cons_of_neg
        exact hx
      have e3 : List.find? (fun u => u.team_id == tid) (x :: xs) =
          List.find? (fun u => u.team_id == tid) xs := by
        apply List.find?_cons_of_neg
        exact hx
      rw [e2, e3, ih]

/-- Claim C5: for an existing team, `toggle_team_visibility` reads the
stored value, persists its negation, and returns the new (negated) value;
called twice in a row it returns the original value and leaves the stored
visibility (as read back by `is_team_visible`) unchanged. -/
theorem toggle_visibility_involutive (db : DB) (tid : String) (t : Team)
    (hfind : db.teams.find? (fun u => u.team_id == tid) = some t)
    (hv : t.location_visibility = 0 ∨ t.location_visibility = 1) :
    (toggle_team_visibility db tid).1 = some (1 - t.location_visibility) ∧
    is_team_visible (toggle_team_visibility db tid).2 tid =
      (is_team_visible db tid).map (fun b => !b) ∧
    (toggle_team_visibility (toggle_team_visibility db tid).2 tid).1 =
      some t.location_visibility ∧
    is_team_visible (toggle_team_visibility (toggle_team_visibility db tid).2 tid).2 tid =
      is_team_visible db tid := by
  set r1 := toggle_team_visibility db tid with hr1
  have h1 : r1 =
      (some (1 - t.location_visibility),
        { db with teams := db.teams.map (fun u =>
            if u.team_id == tid then
              { u with location_visibility := 1 - t.location_visibility }
            else u) }) := by
    rw [hr1, toggle_team_visibility, hfind]
  have hfind1 : r1.2.teams.find? (fun u => u.team_id == tid) =
      some { t with location_visibility := 1 - t.location_visibility } := by
    rw [h1]
    show (db.teams.map _).find? _ = _
    rw [find?_update_visibility, hfind]
    rfl
  have h2 : toggle_team_visibility r1.2 tid =
      (some (1 - (1 - t.location_visibility)),
        { r1.2 with teams := r1.2.teams.map (fun u =>
            if u.team_id == tid then
              { u with location_visibility := 1 - (1 - t.location_visibility) }
            else u) }) := by
    rw [toggle_team_visibility, hfind1]
  have hfind2 : (toggle_team_visibility r1.2 tid).2.teams.find? (fun u => u.team_id == tid) =
      some { t with location_visibility := 1 - (1 - t.location_visibility) } := by
    rw [h2]
    show (r1.2.teams.map _).find? _ = _
    rw [find?_update_visibility, hfind1]
    rfl
  refine ⟨?_, ?_, ?_, ?_⟩
  · rw [h1]
  · rw [is_team_visible, is_team_visible, hfind1, hfind]
    rcases hv with h | h <;> simp [h]
  · rw [h2]
    show some (1 - (1 - t.location_visibility)) = some t.location_visibility
    congr 1
    omega
  · rw [is_team_visible, is_team_visible, hfind2, hfind]
    rcases hv with h | h <;> simp [h]

/-- Claim C5 witness: toggling the visible team `t1` returns 0, and
toggling twice returns the original value 1 and restores the stored
visibility. -/
theorem toggle_visibility_involutive_witness :
    (toggle_team_visibility dbC5w "t1").1 = some (1 - (1 : Int)) ∧
    is_team_visible (toggle_team_visibility dbC5w "t1").2 "t1" =
      (is_team_visible dbC5w "t1").map (fun b => !b) ∧
    (toggle_team_visibility (toggle_team_visibility dbC5w "t1").2 "t1").1 = some (1 : Int) ∧
    is_team_visible (toggle_team_visibility (toggle_team_visibility dbC5w "t1").2 "t1").2 "t1" =
      is_team_visible dbC5w "t1" :=
  toggle_visibility_involutive dbC5w "t1"
    { team_id := "t1", team_name := "Team", member1 := "p1", member2 := none,
      member3 := none, team_motto := none, team_web := none, team_photo := none,
      location_visibility := 1 }
    (by decide) (by decide)

/-- Claim C6: a roster participant whose email matches no login account
resolves with `name = name_web` and `username = name_web`; when a matching
account exists, its `username`, `name` and `role` overlay the roster
record (with the spec's own fallback: an empty account display name falls
back to `name_web`). -/
theorem participant_identity_overlay (db : DB) (accounts : List Account) (id : String)
    (row : ParticipantRow)
    (hrow : db.participants.find? (fun r => r.id == id) = some row) :
    (get_user_by_email accounts row.email = none →
      get_participant_by_id db accounts id = some (resolve_pax accounts row) ∧
      (resolve_pax accounts row).name = some row.name_web ∧
      (resolve_pax accounts row).username = some row.name_web) ∧
    (∀ a, get_user_by_email accounts row.email = some a → a.username ≠ "" →
      get_participant_by_id db accounts id = some (resolve_pax accounts row) ∧
      (resolve_pax accounts row).role = some a.role ∧
      (resolve_pax accounts row).username = some a.username ∧
      (resolve_pax accounts row).name =
        some (if a.name = "" then row.name_web else a.name)) := by
  have hg : get_participant_by_id db accounts id = some (resolve_pax accounts row) := by
    rw [get_participant_by_id, hrow]
    rfl
  constructor
  · intro hnone
    refine ⟨hg, ?_, ?_⟩
    · simp [resolve_pax, hnone, truthyS]
    · simp [resolve_pax, hnone, truthyS]
  · intro a ha hau
    refine ⟨hg, ?_, ?_, ?_⟩
    · by_cases hn : a.name = "" <;> simp [resolve_pax, ha, truthyS, hn, hau]
    · by_cases hn : a.name = "" <;> simp [resolve_pax, ha, truthyS, hn, hau]
    · by_cases hn : a.name = "" <;> simp [resolve_pax, ha, truthyS, hn, hau]

/-- Claim C6 witness: `p2` has no matching account and resolves to its
roster name on both fields; `p1` matches the `ada` account
(case-insensitively on email) and receives its username, name and
role. -/
theorem participant_identity_overlay_witness :
    ((resolve_pax accountsC6 { id := "p2", email := "noacct@x.cz", name_web := "No Account", bio := none, emergency_contact := none, photo := none }).name = some "No Account" ∧
      (resolve_pax accountsC6 { id := "p2", email := "noacct@x.cz", name_web := "No Account", bio := none, emergency_contact := none, photo := none }).username = some "No Account") ∧
    ((resolve_pax accountsC6 { id := "p1", email := "Ada@X.cz", name_web := "Ada Roster", bio := none, emergency_contact := none, photo := none }).role = some "admin" ∧
      (resolve_pax accountsC6 { id := "p1", email := "Ada@X.cz", name_web := "Ada Roster", bio := none, emergency_contact := none, photo := none }).username = some "ada" ∧
      (resolve_pax accountsC6 { id := "p1", email := "Ada@X.cz", name_web := "Ada Roster", bio := none, emergency_contact := none, photo := none }).name =
        some (if ("Ada Account" : String) = "" then "Ada Roster" else "Ada Account")) := by
  constructor
  · have h := (participant_identity_overlay dbC6w accountsC6 "p2"
      { id := "p2", email := "noacct@x.cz", name_web := "No Account", bio := none, emergency_contact := none, photo := none } (by decide)).1 (by decide)
    exact ⟨h.2.1, h.2.2⟩
  · have h := (participant_identity_overlay dbC6w accountsC6 "p1"
      { id := "p1", email := "Ada@X.cz", name_web := "Ada Roster", bio := none, emergency_contact := none, photo := none } (by decide)).2
      { username := "ada", email := "ada@x.cz", name := "Ada Account", role := "admin" }
      (by decide) (by decide)
    exact ⟨h.2.1, h.2.2.1, h.2.2.2⟩

/-- Claim C7: saving a post for a user who belongs to no team raises
before any file write or row insert, leaving the state untouched; for a
user with a team it writes every attached file through the storage backend
under `top_dir/action_type/title/slug(team_name)` and then appends exactly
one post row whose `files` column is the JSON-serialized ordered list of
`(path, type)` manifests. -/
theorem save_post_contract (cfg : String) (slug : String → String) (top_dir : String)
    (post_id created : String) (pax_id : Option String) (action_type : AType)
    (action : ActionArg) (comment : String) (files : List UploadedFile) (s : SPState) :
    (get_team_for_user s.db pax_id = none →
      save_post cfg slug top_dir post_id created pax_id action_type action comment files s =
        PyStep.raised s) ∧
    (∀ team title, get_team_for_user s.db pax_id = some team →
      postTitle action_type action = some title →
      save_post cfg slug top_dir post_id created pax_id action_type action comment files s =
        PyStep.ok
          { db := { s.db with posts := s.db.posts ++
              [{ post_id := post_id, pax_id := pax_id.getD "", team_id := some team.team_id,
                 action_type := action_type, action_name := title, comment := comment,
                 created := created,
                 files := filesJson (files.map (fun f =>
                   (top_dir ++ "/" ++ atypeStr action_type ++ "/" ++ title ++ "/" ++
                     slug team.team_name ++ "/" ++ f.name, f.type))) }] },
            storage := files.foldl (fun fs f =>
              write_file cfg fs
                (top_dir ++ "/" ++ atypeStr action_type ++ "/" ++ title ++ "/" ++
                  slug team.team_name ++ "/" ++ f.name) f.content) s.storage }) := by
  constructor
  · intro h
    rw [save_post, h]
  · intro team title ht htitle
    rw [save_post, ht, htitle]

/-- Claim C7 witness: pax `zz` has no team, so saving raises with the
state untouched; pax `p1` has team `Team X`, and saving appends the one
post row with the serialized manifest and writes the file through the
backend. -/
theorem save_post_contract_witness :
    save_post "local" (fun x => x) "files/2024" "po9" "2024-07-02" (some "zz") AType.challenge
        (ActionArg.entry { name := "Ch A", points := 2 }) "hi" [fileC7] stC7 =
      PyStep.raised stC7 ∧
    save_post "local" (fun x => x) "files/2024" "po9" "2024-07-02" (some "p1") AType.challenge
        (ActionArg.entry { name := "Ch A", points := 2 }) "hi" [fileC7] stC7 =
      PyStep.ok
        { db := { stC7.db with posts := stC7.db.posts ++
            [{ post_id := "po9", pax_id := (some "p1").getD "", team_id := some "t1",
               action_type := AType.challenge, action_name := "Ch A", comment := "hi",
               created := "2024-07-02",
               files := filesJson ([fileC7].map (fun f =>
                 ("files/2024" ++ "/" ++ atypeStr AType.challenge ++ "/" ++ "Ch A" ++ "/" ++
                   (fun x => x) "Team X" ++ "/" ++ f.name, f.type))) }] },
          storage := [fileC7].foldl (fun fs f =>
            write_file "local" fs
              ("files/2024" ++ "/" ++ atypeStr AType.challenge ++ "/" ++ "Ch A" ++ "/" ++
                (fun x => x) "Team X" ++ "/" ++ f.name) f.content) stC7.storage } := by
  constructor
  · exact (save_post_contract "local" (fun x => x) "files/2024" "po9" "2024-07-02" (some "zz")
      AType.challenge (ActionArg.entry { name := "Ch A", points := 2 }) "hi" [fileC7] stC7).1
      (by decide)
  · exact (save_post_contract "local" (fun x => x) "files/2024" "po9" "2024-07-02" (some "p1")
      AType.challenge (ActionArg.entry { name := "Ch A", points := 2 }) "hi" [fileC7] stC7).2
      { team_id := "t1", team_name := "Team X", member1 := "p1", member2 := none,
        member3 := none, team_motto := none, team_web := none, team_photo := none,
        location_visibility := 1 }
      "Ch A" (by decide) rfl

/-- Claim C8 counterexample: with the unknown backend `"ftp"`, the write
operation returns normally with the storage unchanged (a silent no-op —
the source `write_file` has no `else` branch, so nothing is raised), and
the read operation on a `static/`-prefixed path does not raise either: it
performs a local read and returns the content. -/
theorem unknown_backend_counterexample :
    write_file "ftp" { local_files := [], s3_files := [] } "p" "c" =
      { local_files := [], s3_files := [] } ∧
    read_file "ftp" stC8 "static/logo.png" "b" = PyRes.ok (some "LOGO") := by
  constructor
  · rfl
  · rfl

/-- Claim C8 (amended): for a configured backend that is neither `local`
nor `s3`, the read operation raises the configuration `ValueError` for
every path that does not start with `static/` (a `static/` path is always
resolved against the local filesystem instead), while the write operation
silently does nothing — it neither raises nor modifies either store. -/
theorem unknown_backend_behavior (cfg : String) (h1 : cfg ≠ "local") (h2 : cfg ≠ "s3")
    (st : FileState) :
    (∀ path mode, strStartsWith path "static/" = false →
      read_file cfg st path mode =
        PyRes.exn ("ValueError: Unknown file system: " ++ cfg ++ ", use s3 or local.")) ∧
    (∀ path mode c, strStartsWith path "static/" = true →
      lookupFile st.local_files path = some c →
      read_file cfg st path mode = PyRes.ok (some c)) ∧
    (∀ path content, write_file cfg st path content = st) := by
  have hc1 : (cfg == "local") = false := by simpa using h1
  have hc2 : (cfg == "s3") = false := by simpa using h2
  refine ⟨?_, ?_, ?_⟩
  · intro path mode hs
    rw [read_file]
    simp [hc1, hc2, hs]
  · intro path mode c hs hl
    rw [read_file]
    simp [hc1, hc2, hs, hl]
  · intro path content
    rw [write_file]
    simp [hc1, hc2]

/-- Claim C8 witness: the amended behaviour at backend `"ftp"`: a
non-static read raises the configuration error, a static read returns the
local content, and a write leaves the state unchanged. -/
theorem unknown_backend_behavior_witness :
    read_file "ftp" stC8 "files/2024/a.jpg" "b" =
      PyRes.exn ("ValueError: Unknown file system: " ++ "ftp" ++ ", use s3 or local.") ∧
    read_file "ftp" stC8 "static/logo.png" "b" = PyRes.ok (some "LOGO") ∧
    write_file "ftp" stC8 "x" "y" = stC8 :=
  ⟨(unknown_backend_behavior "ftp" (by decide) (by decide) stC8).1 "files/2024/a.jpg" "b" (by decide),
   (unknown_backend_behavior "ftp" (by decide) (by decide) stC8).2.1 "static/logo.png" "b" "LOGO"
     (by decide) (by decide),
   (unknown_backend_behavior "ftp" (by decide) (by decide) stC8).2.2 "x" "y"⟩

/-- Claim C9: when the underlying byte read returns a null result (missing
or unreadable remote source), `read_image` returns the synthesized 1×1
placeholder instead of raising; when the read yields nonempty decodable
bytes, it returns the decoded image with orientation normalized by the
metadata transpose. -/
theorem read_image_placeholder_decode (cfg : String) (decode : String → Option PILImage)
    (transpose : PILImage → PILImage) (st : FileState) (filepath : String) :
    (read_file cfg st filepath "b" = PyRes.ok none →
      read_image cfg decode transpose st filepath = PyRes.ok blankImage) ∧
    (∀ c i, read_file cfg st filepath "b" = PyRes.ok (some c) → c ≠ "" → decode c = some i →
      read_image cfg decode transpose st filepath = PyRes.ok (transpose i)) := by
  constructor
  · intro h
    rw [read_image, h]
  · intro c i h hc hd
    rw [read_image, h]
    have hcb : (c == "") = false := by simpa using hc
    simp [hcb, hd]

/-- Claim C9 witness: reading a missing S3 object yields the 1×1
placeholder; reading the stored object yields the decoded, transposed
image. -/
theorem read_image_placeholder_decode_witness :
    read_image "s3" (fun c => some { width := 2, height := 3, payload := c })
        (fun i => { width := i.height, height := i.width, payload := i.payload })
        stC8 "missing.jpg" = PyRes.ok blankImage ∧
    read_image "s3" (fun c => some { width := 2, height := 3, payload := c })
        (fun i => { width := i.height, height := i.width, payload := i.payload })
        stC8 "files/2024/a.jpg" =
      PyRes.ok { width := 3, height := 2, payload := "PIX" } := by
  constructor
  · exact (read_image_placeholder_decode "s3" (fun c => some { width := 2, height := 3, payload := c })
      (fun i => { width := i.height, height := i.width, payload := i.payload })
      stC8 "missing.jpg").1 (by decide)
  · exact (read_image_placeholder_decode "s3" (fun c => some { width := 2, height := 3, payload := c })
      (fun i => { width := i.height, height := i.width, payload := i.payload })
      stC8 "files/2024/a.jpg").2 "PIX" { width := 2, height := 3, payload := "PIX" }
      (by decide) (by decide) rfl

/-- Claim C10: calling `add_or_update_team` with an existing team's id (a
full `INSERT OR REPLACE`) leaves the stored row's `location_visibility` at
the schema default 1 and `member3` at null, regardless of their values
before the call: the replaced row read back for that team id is exactly
the freshly inserted one, and the team reads back as visible. -/
theorem team_replace_resets_defaults (cfg : String) (slug : String → String)
    (top_dir gen_id team_name : String) (team_motto team_web : Option String)
    (team_photo : Option UploadedFile) (first_member second_member : String)
    (ct : Team) (db : DB) (fst : FileState) :
    (add_or_update_team cfg slug top_dir gen_id team_name team_motto team_web team_photo
        first_member second_member (some ct) db fst).1.teams.find?
        (fun u => u.team_id == ct.team_id) =
      some
        { team_id := ct.team_id, team_name := team_name, member1 := first_member,
          member2 := if second_member == "-1" then none else some second_member,
          member3 := none, team_motto := team_motto, team_web := team_web,
          team_photo :=
            (match team_photo with
             | some ph => some (top_dir ++ "/teams/" ++ slug team_name ++ "/" ++ ph.name)
             | none => none),
          location_visibility := 1 } ∧
    is_team_visible
      (add_or_update_team cfg slug top_dir gen_id team_name team_motto team_web team_photo
        first_member second_member (some ct) db fst).1 ct.team_id = some true := by
  have hnone : (db.teams.filter (fun t => !(t.team_id == ct.team_id))).find?
      (fun u => u.team_id == ct.team_id) = none := by
    rw [List.find?_eq_none]
    intro x hx
    have hmem := (List.mem_filter.mp hx).2
    simpa using hmem
  have hfind : (add_or_update_team cfg slug top_dir gen_id team_name team_motto team_web
      team_photo first_member second_member (some ct) db fst).1.teams.find?
      (fun u => u.team_id == ct.team_id) =
      some
        { team_id := ct.team_id, team_name := team_name, member1 := first_member,
          member2 := if second_member == "-1" then none else some second_member,
          member3 := none, team_motto := team_motto, team_web := team_web,
          team_photo :=
            (match team_photo with
             | some ph => some (top_dir ++ "/teams/" ++ slug team_name ++ "/" ++ ph.name)
             | none => none),
          location_visibility := 1 } := by
    cases team_photo with
    | none =>
      show ((db.teams.filter (fun t : Team => !(t.team_id == ct.team_id))) ++ [_]).find? _ = _
      rw [List.find?_append, hnone, Option.none_or]
      apply List.find?_cons_of_pos
      simp
    | some ph =>
      show ((db.teams.filter (fun t : Team => !(t.team_id == ct.team_id))) ++ [_]).find? _ = _
      rw [List.find?_append, hnone, Option.none_or]
      apply List.find?_cons_of_pos
      simp
  refine ⟨hfind, ?_⟩
  rw [is_team_visible, hfind]
  rfl
